import Mathlib

/-!
Verification of the SkydioClient example HTTP client (skydio_client.py).

The Python source is shallowly embedded: JSON values become an inductive type,
Python 2 byte strings become lists of byte values, the network becomes an
oracle mapping the index of each issued request to a raw response, and every
client method becomes a pure function threading the client fields, the request
counter and the list of issued requests.
-/

/-- Model of a decoded JSON value. The `bytes` constructor stands for a
Python 2 byte string (the result of base64.b64decode), which is never produced
by json.loads but can be stored back into a decoded dictionary by
send_custom_comms. -/
inductive Json where
  | null
  | bool (b : Bool)
  | num (n : Int)
  | str (s : String)
  | bytes (bs : List Nat)
  | arr (elems : List Json)
  | obj (fields : List (String × Json))

/-- First value bound to a key in an association list of JSON object fields. -/
def Json.lookup : List (String × Json) → String → Option Json
  | [], _ => none
  | (k, v) :: rest, key => if k == key then some v else Json.lookup rest key

/-- Python truthiness of a JSON value: None, False, 0, empty string, empty
bytes, empty list and empty dict are falsy, everything else is truthy. -/
def Json.truthy : Json → Bool
  | .null => false
  | .bool b => b
  | .num n => n != 0
  | .str s => s != ""
  | .bytes bs => !bs.isEmpty
  | .arr elems => !elems.isEmpty
  | .obj fields => !fields.isEmpty

/-- Python truthiness of a value that may be the attribute default None. -/
def pyTruthy : Option Json → Bool
  | none => false
  | some j => j.truthy

/-- Python equality of a JSON value with a string literal, as in
`phase == "FLYING"`: true exactly when the value is that string. -/
def Json.eqStr : Json → String → Bool
  | .str t, s => t == s
  | _, _ => false

/-- Python equality of an optional attribute with a string literal; a missing
value (None) is never equal to a string. -/
def optEqStr : Option Json → String → Bool
  | some j, s => j.eqStr s
  | none, _ => false

/-- Whether one character list starts with another, used for the Python
substring test on strings. -/
def prefOf : List Char → List Char → Bool
  | [], _ => true
  | _ :: _, [] => false
  | a :: as, b :: bs => a == b && prefOf as bs

/-- Whether one character list occurs inside another, modelling the Python
substring membership test `key in s`. -/
def infOf (needle : List Char) : List Char → Bool
  | [] => prefOf needle []
  | b :: bs => prefOf needle (b :: bs) || infOf needle bs

/-- Python runtime errors that the client code can raise or propagate. -/
inductive PyErr where
  | urlError
  | httpError (code : Nat)
  | ioError
  | valueError
  | runtimeError (err : Option Json)
  | typeError
  | keyError
  | attributeError

/-- Model of the Python expression `key in value`: key lookup on a dict,
element equality on a list, substring test on a string, and a TypeError on
values that are not iterable. -/
def pyContains : Json → String → Except PyErr Bool
  | .obj fields, key => .ok (Json.lookup fields key).isSome
  | .arr elems, key => .ok (elems.any (fun j => j.eqStr key))
  | .str s, key => .ok (infOf key.toList s.toList)
  | .bytes bs, key => .ok (infOf key.toList (bs.map Char.ofNat))
  | _, _ => .error .typeError

/-- Model of the Python expression `value[key]` with a string key: field
access on a dict (KeyError when absent), TypeError otherwise. -/
def pyIndex : Json → String → Except PyErr Json
  | .obj fields, key =>
    match Json.lookup fields key with
    | some v => .ok v
    | none => .error .keyError
  | _, _ => .error .typeError

/-- Model of the Python expression `value.get(key)`: None-defaulting lookup
on a dict, AttributeError on any other value. -/
def pyGet : Json → String → Except PyErr (Option Json)
  | .obj fields, key => .ok (Json.lookup fields key)
  | _, _ => .error .attributeError

/-- Model of the Python dict item assignment `d[key] = v` on a dict whose
fields are kept in insertion order; an absent key is appended. -/
def setKey : List (String × Json) → String → Json → List (String × Json)
  | [], key, v => [(key, v)]
  | (k0, v0) :: rest, key, v =>
    if k0 == key then (k0, v) :: rest else (k0, v0) :: setKey rest key v

mutual

/-- Model of the Python str() rendering used by string formatting, precise on
scalars (the only values formatted into headers by the client). -/
def pyStr : Json → String
  | .null => "None"
  | .bool true => "True"
  | .bool false => "False"
  | .num n => toString n
  | .str s => s
  | .bytes bs => String.mk (bs.map Char.ofNat)
  | .arr elems => "\x5b" ++ pyStrElems elems ++ "\x5d"
  | .obj fields => "\x7b" ++ pyStrFields fields ++ "\x7d"

/-- Comma-joined rendering of JSON list elements. -/
def pyStrElems : List Json → String
  | [] => ""
  | [j] => pyStr j
  | j :: rest => pyStr j ++ ", " ++ pyStrElems rest

/-- Comma-joined rendering of JSON object fields. -/
def pyStrFields : List (String × Json) → String
  | [] => ""
  | [(k, v)] => k ++ ": " ++ pyStr v
  | (k, v) :: rest => k ++ ": " ++ pyStr v ++ ", " ++ pyStrFields rest

end

/-- The standard base64 alphabet in index order. -/
def b64Alphabet : List Char :=
  "ABCDEFGHIJKLMNOPQRSTUVWXYZabcdefghijklmnopqrstuvwxyz0123456789+/".toList

/-- Character of a 6-bit group under the standard base64 alphabet. -/
def b64Char (n : Nat) : Char := b64Alphabet.getD n 'A'

/-- Index of a character in a character list, used to invert the alphabet. -/
def b64ValueAux : List Char → Nat → Char → Option Nat
  | [], _, _ => none
  | a :: rest, i, c => if a == c then some i else b64ValueAux rest (i + 1) c

/-- Inverse of the base64 alphabet: the 6-bit value of a character. -/
def b64Value (c : Char) : Option Nat := b64ValueAux b64Alphabet 0 c

/-- Model of base64.b64encode on a Python 2 byte string: three input bytes
become four alphabet characters, with = padding for a final partial group. -/
def b64encodeBytes : List Nat → List Char
  | [] => []
  | [a] => [b64Char (a / 4), b64Char (a % 4 * 16), '=', '=']
  | [a, b] => [b64Char (a / 4), b64Char (a % 4 * 16 + b / 16), b64Char (b % 16 * 4), '=']
  | a :: b :: c :: rest =>
    b64Char (a / 4) :: b64Char (a % 4 * 16 + b / 16) ::
    b64Char (b % 16 * 4 + c / 64) :: b64Char (c % 64) :: b64encodeBytes rest

/-- Model of base64.b64decode on well-formed input: four alphabet characters
become three bytes, with = padding cutting the final group short. Invalid
input, which makes the Python binascii routine raise, decodes to a prefix. -/
def b64decodeChars : List Char → List Nat
  | c1 :: c2 :: c3 :: c4 :: rest =>
    match b64Value c1, b64Value c2 with
    | some v1, some v2 =>
      if c3 == '=' then [v1 * 4 + v2 / 16]
      else
        match b64Value c3 with
        | some v3 =>
          if c4 == '=' then [v1 * 4 + v2 / 16, v2 % 16 * 16 + v3 / 4]
          else
            match b64Value c4 with
            | some v4 =>
              (v1 * 4 + v2 / 16) :: (v2 % 16 * 16 + v3 / 4) ::
              (v3 % 4 * 64 + v4) :: b64decodeChars rest
            | none => []
        | none => []
    | _, _ => []
  | _ => []

/-- Mutable fields of a SkydioClient instance, as set in the constructor. -/
structure ClientState where
  baseurl : String
  access_token : Option Json
  session_id : Option Json
  access_level : Option Json

/-- An HTTP request as built by request_json: the endpoint passed in, the
full url, the header list, and the optional JSON body. -/
structure HttpRequest where
  endpoint : String
  url : String
  headers : List (String × String)
  body : Option Json

/-- Headers attached by request_json: Accept always, a bearer Authorization
header when the access token is truthy, and a Content-Type header exactly
when a JSON body is sent. -/
def requestHeaders (c : ClientState) (json_data : Option Json) : List (String × String) :=
  let base := [("Accept", "application/json")]
  let withAuth :=
    match c.access_token with
    | some tok =>
      if tok.truthy then base ++ [("Authorization", "Bearer " ++ pyStr tok)] else base
    | none => base
  match json_data with
  | some _ => withAuth ++ [("Content-Type", "application/json")]
  | none => withAuth

/-- The request issued by request_json for a given endpoint and body. -/
def buildRequest (c : ClientState) (endpoint : String) (json_data : Option Json) : HttpRequest :=
  { endpoint := endpoint
    url := c.baseurl ++ "/api/" ++ endpoint
    headers := requestHeaders c json_data
    body := json_data }

/-- First value of a header by name. -/
def headerVal : List (String × String) → String → Option String
  | [], _ => none
  | (k, v) :: rest, key => if k == key then some v else headerVal rest key

/-- Whether a header by the given name is attached to a request. -/
def hasHeader (r : HttpRequest) (key : String) : Bool :=
  (headerVal r.headers key).isSome

/-- A response delivered by urlopen: status code, whether the object is
readable, and the body as parsed by json.loads (none when parsing fails). -/
structure RawResponse where
  code : Nat
  hasRead : Bool
  body : Option Json

/-- Outcome of one urlopen call: a raw response, or a raised transport
error (connection failure, timeout, or an error urlopen raises itself). -/
inductive NetResult where
  | err
  | ok (r : RawResponse)

/-- The response-processing half of request_json: raise on a transport
error, raise HTTPError on a 4xx or 5xx status, raise IOError on an
unreadable response, raise ValueError when the body fails to parse, raise
RuntimeError carrying the error field when the data envelope is missing,
and otherwise return the value of the data key. -/
def request_json_result : NetResult → Except PyErr Json
  | .err => .error .urlError
  | .ok r =>
    if r.code / 100 == 4 || r.code / 100 == 5 then .error (.httpError r.code)
    else if !r.hasRead then .error .ioError
    else
      match r.body with
      | none => .error .valueError
      | some sr =>
        match pyContains sr "data" with
        | .error e => .error e
        | .ok true =>
          match pyIndex sr "data" with
          | .ok v => .ok v
          | .error e => .error e
        | .ok false =>
          match sr with
          | .obj fields => .error (.runtimeError (Json.lookup fields "error"))
          | _ => .error .attributeError

/-- A well-formed 200 response wrapping a payload in the data envelope. -/
def okEnvelope (payload : Json) : NetResult :=
  .ok { code := 200, hasRead := true, body := some (.obj [("data", payload)]) }

/-- The network oracle: the raw outcome of the n-th request the client
issues over its lifetime. -/
def NetEnv : Type := Nat → NetResult

/-- Ways a client method stops without producing a value: an uncaught
Python exception, a sys.exit(1), or (a modelling artifact) exhaustion of the
fuel bounding an unbounded polling loop. -/
inductive Halt where
  | exn (e : PyErr)
  | exit
  | fuelOut

/-- Result of running a client method: the returned value or halt, the
client fields afterwards, the next request index, and the requests issued
by the method in order. -/
structure OpOut (α : Type) where
  res : Except Halt α
  client : ClientState
  idx : Nat
  reqs : List HttpRequest

/-- Model of one request_json call: build the request, consult the oracle
for the outcome, and either return the data payload or raise. The client
fields are passed through untouched. -/
def doRequest (env : NetEnv) (endpoint : String) (json_data : Option Json)
    (c : ClientState) (idx : Nat) : OpOut Json :=
  match request_json_result (env idx) with
  | .ok j => ⟨.ok j, c, idx + 1, [buildRequest c endpoint json_data]⟩
  | .error e => ⟨.error (.exn e), c, idx + 1, [buildRequest c endpoint json_data]⟩

/-- The authentication request body: a fresh client id, requested level 8
for pilot and 4 otherwise, the commandeer flag, and the stripped contents of
the token file when one was supplied. -/
def auth_request_body (pilot : Bool) (client_id : String)
    (token_file : Option (Option String)) : Json :=
  .obj ([("client_id", .str client_id),
         ("requested_level", .num (if pilot then 8 else 4)),
         ("commandeer", .bool true)] ++
    match token_file with
    | some (some content) => [("credentials", .str content.trim)]
    | _ => [])

/-- Model of SkydioClient._authenticate. A token_file value of `some none`
stands for a path naming a missing file, which exits before any request;
`some (some s)` stands for a file with contents s. On a response whose
accessLevel is not PILOT while pilot access was requested, the method stores
the access level, exits fatally, and never stores the access token. -/
def authenticate (env : NetEnv) (pilot : Bool) (client_id : String)
    (token_file : Option (Option String)) (c : ClientState) (idx : Nat) : OpOut Unit :=
  match token_file with
  | some none => ⟨.error .exit, c, idx, []⟩
  | _ =>
    match doRequest env "authentication" (some (auth_request_body pilot client_id token_file)) c idx with
    | ⟨.error h, c1, i1, t1⟩ => ⟨.error h, c1, i1, t1⟩
    | ⟨.ok response, c1, i1, t1⟩ =>
      match pyGet response "accessLevel" with
      | .error e => ⟨.error (.exn e), c1, i1, t1⟩
      | .ok lv =>
        let c2 := { c1 with access_level := lv }
        if pilot && !(optEqStr lv "PILOT") then ⟨.error .exit, c2, i1, t1⟩
        else
          match pyGet response "accessToken" with
          | .error e => ⟨.error (.exn e), c2, i1, t1⟩
          | .ok tok => ⟨.ok (), { c2 with access_token := tok }, i1, t1⟩

/-- Model of SkydioClient.__init__: fresh fields, then _authenticate. -/
def clientInit (env : NetEnv) (baseurl : String) (pilot : Bool) (client_id : String)
    (token_file : Option (Option String)) : OpOut Unit :=
  authenticate env pilot client_id token_file
    { baseurl := baseurl, access_token := none, session_id := none, access_level := none } 0

/-- The fixed part of the status request body. -/
def statusArgsBase : List (String × Json) :=
  [("wouldAcceptPilot", .bool true),
   ("inForeground", .bool true),
   ("mediaMode", .str "FLIGHT_CONTROL"),
   ("takeoffType", .str "GROUND_TAKEOFF")]

/-- The status request body: the fixed part plus the current session id
when one is set and truthy. -/
def statusArgs (session_id : Option Json) : Json :=
  .obj (statusArgsBase ++
    match session_id with
    | some sid => if sid.truthy then [("sessionId", sid)] else []
    | none => [])

/-- Model of SkydioClient.update_pilot_status: post the status body, store
the sessionId field of the response (KeyError when absent), and return the
full response. -/
def update_pilot_status (env : NetEnv) (c : ClientState) (idx : Nat) : OpOut Json :=
  match doRequest env "status" (some (statusArgs c.session_id)) c idx with
  | ⟨.error h, c1, i1, t1⟩ => ⟨.error h, c1, i1, t1⟩
  | ⟨.ok response, c1, i1, t1⟩ =>
    match pyIndex response "sessionId" with
    | .error e => ⟨.error (.exn e), c1, i1, t1⟩
    | .ok sid => ⟨.ok response, { c1 with session_id := some sid }, i1, t1⟩

/-- The body of every fault override request. -/
def fault_override_body : Json :=
  .obj [("override_on", .bool true), ("fault_active", .bool false)]

/-- Model of SkydioClient.disable_faults: override fault 2
(LOST_PHONE_COMMS_SHORT) and fault 3 (LOST_PHONE_COMMS_LONG). -/
def disable_faults (env : NetEnv) (c : ClientState) (idx : Nat) : OpOut Unit :=
  match doRequest env "set_fault_override/2" (some fault_override_body) c idx with
  | ⟨.error h, c1, i1, t1⟩ => ⟨.error h, c1, i1, t1⟩
  | ⟨.ok _, c1, i1, t1⟩ =>
    match doRequest env "set_fault_override/3" (some fault_override_body) c1 i1 with
    | ⟨.error h, c2, i2, t2⟩ => ⟨.error h, c2, i2, t1 ++ t2⟩
    | ⟨.ok _, c2, i2, t2⟩ => ⟨.ok (), c2, i2, t1 ++ t2⟩

/-- The async command body requesting a ground takeoff. -/
def groundTakeoffBody : Json := .obj [("command", .str "ground_takeoff")]

/-- The async command body requesting a landing. -/
def landBody : Json := .obj [("command", .str "land")]

/-- The polling loop of SkydioClient.takeoff, bounded by fuel: poll status,
skip empty phases, publish one ground_takeoff command on the ready phase,
and return once the phase is FLYING. -/
def takeoffLoop (env : NetEnv) (fuel : Nat) (c : ClientState) (idx : Nat) : OpOut Unit :=
  match fuel with
  | 0 => ⟨.error .fuelOut, c, idx, []⟩
  | fuel' + 1 =>
    match update_pilot_status env c idx with
    | ⟨.error h, c1, i1, t1⟩ => ⟨.error h, c1, i1, t1⟩
    | ⟨.ok response, c1, i1, t1⟩ =>
      match pyGet response "flightPhase" with
      | .error e => ⟨.error (.exn e), c1, i1, t1⟩
      | .ok phase =>
        if pyTruthy phase = false then
          let o := takeoffLoop env fuel' c1 i1
          ⟨o.res, o.client, o.idx, t1 ++ o.reqs⟩
        else if optEqStr phase "READY_FOR_GROUND_TAKEOFF" then
          match doRequest env "async_command" (some groundTakeoffBody) c1 i1 with
          | ⟨.error h, c2, i2, t2⟩ => ⟨.error h, c2, i2, t1 ++ t2⟩
          | ⟨.ok _, c2, i2, t2⟩ =>
            let o := takeoffLoop env fuel' c2 i2
            ⟨o.res, o.client, o.idx, t1 ++ t2 ++ o.reqs⟩
        else if optEqStr phase "FLYING" then ⟨.ok (), c1, i1, t1⟩
        else
          let o := takeoffLoop env fuel' c1 i1
          ⟨o.res, o.client, o.idx, t1 ++ o.reqs⟩

/-- Model of SkydioClient.takeoff: return at once without any request when
the access level is not PILOT, otherwise refresh the session, disable the
two phone faults, and run the polling loop. -/
def takeoff (env : NetEnv) (fuel : Nat) (c : ClientState) (idx : Nat) : OpOut Unit :=
  if (optEqStr c.access_level "PILOT") = false then ⟨.ok (), c, idx, []⟩
  else
    match update_pilot_status env c idx with
    | ⟨.error h, c1, i1, t1⟩ => ⟨.error h, c1, i1, t1⟩
    | ⟨.ok _, c1, i1, t1⟩ =>
      match disable_faults env c1 i1 with
      | ⟨.error h, c2, i2, t2⟩ => ⟨.error h, c2, i2, t1 ++ t2⟩
      | ⟨.ok _, c2, i2, t2⟩ =>
        let o := takeoffLoop env fuel c2 i2
        ⟨o.res, o.client, o.idx, t1 ++ t2 ++ o.reqs⟩

/-- The polling loop of SkydioClient.land, bounded by fuel: send a land
command, poll status, keep looping while the phase is empty or FLYING, and
return once a truthy phase other than FLYING is reported. -/
def landLoop (env : NetEnv) (fuel : Nat) (c : ClientState) (idx : Nat) : OpOut Unit :=
  match fuel with
  | 0 => ⟨.error .fuelOut, c, idx, []⟩
  | fuel' + 1 =>
    match doRequest env "async_command" (some landBody) c idx with
    | ⟨.error h, c1, i1, t1⟩ => ⟨.error h, c1, i1, t1⟩
    | ⟨.ok _, c1, i1, t1⟩ =>
      match update_pilot_status env c1 i1 with
      | ⟨.error h, c2, i2, t2⟩ => ⟨.error h, c2, i2, t1 ++ t2⟩
      | ⟨.ok response, c2, i2, t2⟩ =>
        match pyGet response "flightPhase" with
        | .error e => ⟨.error (.exn e), c2, i2, t1 ++ t2⟩
        | .ok newPhase =>
          if pyTruthy newPhase = false then
            let o := landLoop env fuel' c2 i2
            ⟨o.res, o.client, o.idx, t1 ++ t2 ++ o.reqs⟩
          else if optEqStr newPhase "FLYING" then
            let o := landLoop env fuel' c2 i2
            ⟨o.res, o.client, o.idx, t1 ++ t2 ++ o.reqs⟩
          else ⟨.ok (), c2, i2, t1 ++ t2⟩

/-- Model of SkydioClient.land: a no-op without pilot access, otherwise the
land polling loop. -/
def land (env : NetEnv) (fuel : Nat) (c : ClientState) (idx : Nat) : OpOut Unit :=
  if (optEqStr c.access_level "PILOT") = false then ⟨.ok (), c, idx, []⟩
  else landLoop env fuel c idx

/-- Model of SkydioClient.set_skill: a no-op without pilot access, otherwise
one skill activation request with empty arguments. -/
def set_skill (env : NetEnv) (skill_key : String) (c : ClientState) (idx : Nat) : OpOut Unit :=
  if (optEqStr c.access_level "PILOT") = false then ⟨.ok (), c, idx, []⟩
  else
    match doRequest env ("set_skill/" ++ skill_key) (some (.obj [("args", .obj [])])) c idx with
    | ⟨.error h, c1, i1, t1⟩ => ⟨.error h, c1, i1, t1⟩
    | ⟨.ok _, c1, i1, t1⟩ => ⟨.ok (), c1, i1, t1⟩

/-- The custom_comms request body: the base64-encoded payload, the skill
key, and the no_response flag. -/
def rpcRequestBody (skill_key : String) (data : List Nat) (no_response : Bool) : Json :=
  .obj [("data", .str (String.mk (b64encodeBytes data))),
        ("skill_key", .str skill_key),
        ("no_response", .bool no_response)]

/-- Model of base64.b64decode applied to a JSON value: strings and byte
strings decode, anything else raises TypeError. -/
def b64decodeJson : Json → Except PyErr Json
  | .str s => .ok (.bytes (b64decodeChars s.toList))
  | .bytes bs => .ok (.bytes (b64decodeChars (bs.map Char.ofNat)))
  | _ => .error .typeError

/-- Model of SkydioClient.send_custom_comms: post the encoded payload; on
any request_json failure swallow the exception and return None; on success
base64-decode the data field of a truthy dict reply in place, and return
any other reply unchanged. -/
def send_custom_comms (env : NetEnv) (skill_key : String) (data : List Nat)
    (no_response : Bool) (c : ClientState) (idx : Nat) : OpOut Json :=
  match doRequest env "custom_comms" (some (rpcRequestBody skill_key data no_response)) c idx with
  | ⟨.error _, c1, i1, t1⟩ => ⟨.ok .null, c1, i1, t1⟩
  | ⟨.ok rpc_response, c1, i1, t1⟩ =>
    if rpc_response.truthy then
      match pyContains rpc_response "data" with
      | .error e => ⟨.error (.exn e), c1, i1, t1⟩
      | .ok true =>
        match rpc_response with
        | .obj fields =>
          match Json.lookup fields "data" with
          | some v =>
            match b64decodeJson v with
            | .ok d => ⟨.ok (.obj (setKey fields "data" d)), c1, i1, t1⟩
            | .error e => ⟨.error (.exn e), c1, i1, t1⟩
          | none => ⟨.ok (.obj fields), c1, i1, t1⟩
        | _ => ⟨.error (.exn .typeError), c1, i1, t1⟩
      | .ok false => ⟨.ok rpc_response, c1, i1, t1⟩
    else ⟨.ok rpc_response, c1, i1, t1⟩

/-- The endpoint sequence of k iterations of the land polling loop: a land
async command before each status poll. -/
def landPattern : Nat → List String
  | 0 => []
  | k + 1 => "async_command" :: "status" :: landPattern k

/-- Whether a raw network outcome, read as a status poll, reports a truthy
flight phase different from FLYING — the only condition on which the land
polling loop returns. -/
def pollBreaks (r : NetResult) : Bool :=
  match request_json_result r with
  | .ok resp =>
    match pyGet resp "flightPhase" with
    | .ok phase => pyTruthy phase && !(optEqStr phase "FLYING")
    | .error _ => false
  | .error _ => false

/-- Network oracle for the takeoff scenario: the three status polls report
phases ready, ready, flying (with arbitrary session ids), the two fault
overrides and the takeoff command get arbitrary data payloads, and requests
past the sixth get arbitrary outcomes. -/
def takeoffScenarioEnv (sid0 sid1 sid2 j1 j2 j3 : Json) (rest : Nat → NetResult) :
    Nat → NetResult
  | 0 => okEnvelope (.obj [("sessionId", sid0), ("flightPhase", .str "READY_FOR_GROUND_TAKEOFF")])
  | 1 => okEnvelope j1
  | 2 => okEnvelope j2
  | 3 => okEnvelope (.obj [("sessionId", sid1), ("flightPhase", .str "READY_FOR_GROUND_TAKEOFF")])
  | 4 => okEnvelope j3
  | 5 => okEnvelope (.obj [("sessionId", sid2), ("flightPhase", .str "FLYING")])
  | _ + 6 => rest 0

/-- The alphabet inverts its indexing on every 6-bit value. -/
theorem b64Value_b64Char_fin : ∀ n : Fin 64, b64Value (b64Char n.val) = some n.val := by
  decide

/-- Nat-level form of the alphabet inversion. -/
theorem b64Value_b64Char (n : Nat) (h : n < 64) : b64Value (b64Char n) = some n :=
  b64Value_b64Char_fin ⟨n, h⟩

/-- No 6-bit value encodes to the padding character. -/
theorem b64Char_ne_pad_fin : ∀ n : Fin 64, (b64Char n.val == '=') = false := by
  decide

/-- Nat-level form of the padding separation. -/
theorem b64Char_ne_pad (n : Nat) (h : n < 64) : (b64Char n == '=') = false :=
  b64Char_ne_pad_fin ⟨n, h⟩

/-- Decoding inverts encoding on every byte string. -/
theorem b64_roundtrip (l : List Nat) (h : ∀ x ∈ l, x < 256) :
    b64decodeChars (b64encodeBytes l) = l := by
  induction l using b64encodeBytes.induct with
  | case1 => rfl
  | case2 a =>
    have ha : a < 256 := h a (by simp)
    rw [b64encodeBytes, b64decodeChars]
    rw [b64Value_b64Char (a / 4) (by omega), b64Value_b64Char (a % 4 * 16) (by omega)]
    simp only [beq_self_eq_true, if_true]
    have : a / 4 * 4 + a % 4 * 16 / 16 = a := by omega
    rw [this]
  | case3 a b =>
    have ha : a < 256 := h a (by simp)
    have hb : b < 256 := h b (by simp)
    rw [b64encodeBytes, b64decodeChars]
    rw [b64Value_b64Char (a / 4) (by omega),
      b64Value_b64Char (a % 4 * 16 + b / 16) (by omega)]
    simp only [b64Char_ne_pad (b % 16 * 4) (by omega), if_false,
      b64Value_b64Char (b % 16 * 4) (by omega), beq_self_eq_true, if_true]
    have h1 : a / 4 * 4 + (a % 4 * 16 + b / 16) / 16 = a := by omega
    have h2 : (a % 4 * 16 + b / 16) % 16 * 16 + b % 16 * 4 / 4 = b := by omega
    rw [h1, h2]
    simp
  | case4 a b c rest ih =>
    have ha : a < 256 := h a (by simp)
    have hb : b < 256 := h b (by simp)
    have hc : c < 256 := h c (by simp)
    rw [b64encodeBytes, b64decodeChars]
    rw [b64Value_b64Char (a / 4) (by omega),
      b64Value_b64Char (a % 4 * 16 + b / 16) (by omega)]
    simp only [b64Char_ne_pad (b % 16 * 4 + c / 64) (by omega), if_false,
      b64Value_b64Char (b % 16 * 4 + c / 64) (by omega),
      b64Char_ne_pad (c % 64) (by omega),
      b64Value_b64Char (c % 64) (by omega)]
    have h1 : a / 4 * 4 + (a % 4 * 16 + b / 16) / 16 = a := by omega
    have h2 : (a % 4 * 16 + b / 16) % 16 * 16 + (b % 16 * 4 + c / 64) / 4 = b := by omega
    have h3 : (b % 16 * 4 + c / 64) % 4 * 64 + c % 64 = c := by omega
    rw [h1, h2, h3, ih (fun x hx => h x (by simp [hx]))]
    simp


/-- C9: request_json never modifies the client: the baseurl, access token,
session id and access level fields are all unchanged after any call, whether
the call returns the data payload normally or raises. -/
theorem request_json_preserves_client_state (env : NetEnv) (endpoint : String)
    (json_data : Option Json) (c : ClientState) (idx : Nat) :
    (doRequest env endpoint json_data c idx).client = c := by
  unfold doRequest
  cases request_json_result (env idx) <;> rfl

/-- C7: takeoff called on a client whose access level is not PILOT returns
immediately with the state untouched and issues zero network requests. -/
theorem takeoff_not_pilot_no_requests (env : NetEnv) (fuel : Nat) (c : ClientState)
    (idx : Nat) (h : optEqStr c.access_level "PILOT" = false) :
    takeoff env fuel c idx = ⟨.ok (), c, idx, []⟩ := by
  unfold takeoff
  simp [h]

/-- Closed instance of the C7 theorem on a freshly constructed phone-level
client. -/
theorem takeoff_not_pilot_no_requests_witness :
    optEqStr (ClientState.mk "http://192.168.10.1" none none
      (some (.str "PHONE"))).access_level "PILOT" = false ∧
    takeoff (fun _ => .err) 5 (ClientState.mk "http://192.168.10.1" none none
      (some (.str "PHONE"))) 0 =
      ⟨.ok (), ClientState.mk "http://192.168.10.1" none none (some (.str "PHONE")), 0, []⟩ :=
  ⟨rfl, takeoff_not_pilot_no_requests (fun _ => .err) 5 _ 0 rfl⟩

/-- C1: whenever the underlying request_json call fails for any reason
(transport error, HTTP error status, unreadable or unparseable body, missing
data envelope), send_custom_comms swallows the exception and returns None
instead of propagating it. -/
theorem send_custom_comms_failure_returns_null (env : NetEnv) (skill_key : String)
    (data : List Nat) (no_response : Bool) (c : ClientState) (idx : Nat) (e : PyErr)
    (h : request_json_result (env idx) = .error e) :
    (send_custom_comms env skill_key data no_response c idx).res = .ok .null := by
  unfold send_custom_comms doRequest
  rw [h]

/-- Closed instance of the C1 theorem on a transport failure. -/
theorem send_custom_comms_failure_returns_null_witness :
    request_json_result ((fun _ => NetResult.err) 0) = .error .urlError ∧
    (send_custom_comms (fun _ => NetResult.err) "samples.com_link.ComLink" [104, 105]
      false (ClientState.mk "http://x" none none none) 0).res = .ok .null :=
  ⟨rfl, send_custom_comms_failure_returns_null (fun _ => NetResult.err) _ _ _ _ _ _ rfl⟩

/-- C2: a response body that parses to a JSON object without a data key
makes request_json raise whatever the HTTP status code was, and whenever
request_json returns normally the returned value is exactly the value of the
data key of the parsed object body. -/
theorem request_json_data_envelope :
    (∀ (code : Nat) (hr : Bool) (fields : List (String × Json)),
      Json.lookup fields "data" = none →
      ∃ e, request_json_result (.ok ⟨code, hr, some (.obj fields)⟩) = .error e) ∧
    (∀ (res : NetResult) (j : Json), request_json_result res = .ok j →
      ∃ r fields, res = .ok r ∧ r.body = some (.obj fields) ∧
        Json.lookup fields "data" = some j) := by
  constructor
  · intro code hr fields hnone
    by_cases h45 : (code / 100 == 4 || code / 100 == 5) = true
    · exact ⟨.httpError code, by simp [request_json_result, h45]⟩
    · rcases hr with _ | _
      · exact ⟨.ioError, by simp [request_json_result, h45]⟩
      · exact ⟨.runtimeError (Json.lookup fields "error"),
          by simp [request_json_result, h45, pyContains, hnone]⟩
  · intro res j hok
    rcases res with _ | ⟨code, hr, body⟩
    · simp [request_json_result] at hok
    · refine ⟨⟨code, hr, body⟩, ?_⟩
      simp only [request_json_result] at hok
      split at hok
      · simp at hok
      · split at hok
        · simp at hok
        · split at hok
          · simp at hok
          · rename_i sr
            split at hok
            · simp at hok
            · rename_i hcont
              split at hok
              · rename_i v hpi
                rcases sr with _ | b | n | s | bs | elems | fields
                · simp [pyIndex] at hpi
                · simp [pyIndex] at hpi
                · simp [pyIndex] at hpi
                · simp [pyIndex] at hpi
                · simp [pyIndex] at hpi
                · simp [pyIndex] at hpi
                · refine ⟨fields, rfl, rfl, ?_⟩
                  have hm : (match Json.lookup fields "data" with
                    | some w => (Except.ok w : Except PyErr Json)
                    | none => Except.error PyErr.keyError) = Except.ok v := hpi
                  cases hlk : Json.lookup fields "data" with
                  | none => rw [hlk] at hm; simp at hm
                  | some w =>
                    rw [hlk] at hm
                    simp only [Except.ok.injEq] at hm hok
                    rw [hm, hok]
              · simp at hok
            · split at hok
              · simp at hok
              · simp at hok

/-- Closed instances of the C2 theorem: an error envelope raises under
status 200, and a data envelope returns exactly the data value. -/
theorem request_json_data_envelope_witness :
    (Json.lookup [("error", Json.str "boom")] "data" = none ∧
      ∃ e, request_json_result
        (.ok ⟨200, true, some (.obj [("error", Json.str "boom")])⟩) = .error e) ∧
    (request_json_result (okEnvelope (.num 7)) = .ok (.num 7) ∧
      ∃ r fields, okEnvelope (.num 7) = .ok r ∧ r.body = some (.obj fields) ∧
        Json.lookup fields "data" = some (.num 7)) :=
  ⟨⟨rfl, request_json_data_envelope.1 200 true [("error", Json.str "boom")] rfl⟩,
   ⟨rfl, request_json_data_envelope.2 (okEnvelope (.num 7)) (.num 7) rfl⟩⟩

/-- send_custom_comms always issues exactly one custom_comms request whose
body is the rpc request it builds. -/
theorem send_custom_comms_reqs (env : NetEnv) (skill_key : String) (data : List Nat)
    (no_response : Bool) (c : ClientState) (idx : Nat) :
    (send_custom_comms env skill_key data no_response c idx).reqs =
      [buildRequest c "custom_comms" (some (rpcRequestBody skill_key data no_response))] := by
  unfold send_custom_comms doRequest
  cases request_json_result (env idx) with
  | error e => rfl
  | ok j =>
    dsimp only
    (repeat' split) <;> rfl

/-- C6: the payload of the custom_comms request is the base64 encoding of
the input bytes, decoding inverts encoding on every byte string, and a reply
that echoes the encoded bytes back in its data field is returned with that
field decoded to the original bytes. -/
theorem send_custom_comms_base64_roundtrip (env : NetEnv) (skill_key : String)
    (data : List Nat) (no_response : Bool) (c : ClientState) (idx : Nat)
    (hbytes : ∀ x ∈ data, x < 256) :
    (send_custom_comms env skill_key data no_response c idx).reqs.map (fun r => r.body) =
      [some (rpcRequestBody skill_key data no_response)] ∧
    pyIndex (rpcRequestBody skill_key data no_response) "data" =
      .ok (.str (String.mk (b64encodeBytes data))) ∧
    b64decodeChars (b64encodeBytes data) = data ∧
    (request_json_result (env idx) =
        .ok (.obj [("data", .str (String.mk (b64encodeBytes data)))]) →
      (send_custom_comms env skill_key data no_response c idx).res =
        .ok (.obj [("data", .bytes data)])) := by
  refine ⟨?_, rfl, b64_roundtrip data hbytes, ?_⟩
  · rw [send_custom_comms_reqs]
    rfl
  · intro h
    unfold send_custom_comms doRequest
    rw [h]
    simp [pyContains, Json.lookup, Json.truthy, b64decodeJson, setKey,
      b64_roundtrip data hbytes, String.toList]

/-- Closed instance of the C6 theorem on the bytes 104, 0, 255 with an
echoing reply. -/
theorem send_custom_comms_base64_roundtrip_witness :
    (∀ x ∈ [104, 0, 255], x < 256) ∧
    b64decodeChars (b64encodeBytes [104, 0, 255]) = [104, 0, 255] ∧
    (send_custom_comms
      (fun _ => okEnvelope (.obj [("data", .str (String.mk (b64encodeBytes [104, 0, 255])))]))
      "sk" [104, 0, 255] false (ClientState.mk "u" none none none) 0).res =
      .ok (.obj [("data", .bytes [104, 0, 255])]) := by
  refine ⟨by decide, ?_, ?_⟩
  · exact (send_custom_comms_base64_roundtrip
      (fun _ => okEnvelope (.obj [("data", .str (String.mk (b64encodeBytes [104, 0, 255])))]))
      "sk" [104, 0, 255] false (ClientState.mk "u" none none none) 0 (by decide)).2.2.1
  · exact (send_custom_comms_base64_roundtrip
      (fun _ => okEnvelope (.obj [("data", .str (String.mk (b64encodeBytes [104, 0, 255])))]))
      "sk" [104, 0, 255] false (ClientState.mk "u" none none none) 0 (by decide)).2.2.2 rfl

/-- C10: when the custom_comms request succeeds, a falsy reply payload and a
dict reply without a data key are returned unchanged with no base64 decoding
applied, and a reply whose data payload is null is indistinguishable from a
request failure: both calls return None. -/
theorem send_custom_comms_passthrough_ambiguity :
    (∀ (env : NetEnv) (sk : String) (d : List Nat) (nr : Bool) (c : ClientState)
      (idx : Nat) (payload : Json), request_json_result (env idx) = .ok payload →
      payload.truthy = false →
      (send_custom_comms env sk d nr c idx).res = .ok payload) ∧
    (∀ (env : NetEnv) (sk : String) (d : List Nat) (nr : Bool) (c : ClientState)
      (idx : Nat) (fields : List (String × Json)),
      request_json_result (env idx) = .ok (.obj fields) →
      Json.lookup fields "data" = none →
      (send_custom_comms env sk d nr c idx).res = .ok (.obj fields)) ∧
    (∀ (env env2 : NetEnv) (sk : String) (d : List Nat) (nr : Bool) (c c2 : ClientState)
      (idx idx2 : Nat) (e : PyErr),
      request_json_result (env idx) = .error e →
      request_json_result (env2 idx2) = .ok .null →
      (send_custom_comms env sk d nr c idx).res = (send_custom_comms env2 sk d nr c2 idx2).res) := by
  refine ⟨?_, ?_, ?_⟩
  · intro env sk d nr c idx payload h ht
    unfold send_custom_comms doRequest
    rw [h]
    simp [ht]
  · intro env sk d nr c idx fields h hlk
    unfold send_custom_comms doRequest
    rw [h]
    by_cases ht : (Json.obj fields).truthy = true
    · simp [ht, pyContains, hlk]
    · simp only [Bool.not_eq_true] at ht
      simp [ht]
  · intro env env2 sk d nr c c2 idx idx2 e h1 h2
    unfold send_custom_comms doRequest
    rw [h1, h2]
    simp [Json.truthy]

/-- Closed instances of the C10 theorem: a falsy payload, a dict without a
data key, and the failure/null ambiguity. -/
theorem send_custom_comms_passthrough_ambiguity_witness :
    (send_custom_comms (fun _ => okEnvelope (.num 0)) "sk" [1] false
      (ClientState.mk "u" none none none) 0).res = .ok (.num 0) ∧
    (send_custom_comms (fun _ => okEnvelope (.obj [("meta", Json.str "m")])) "sk" [1] false
      (ClientState.mk "u" none none none) 0).res = .ok (.obj [("meta", Json.str "m")]) ∧
    (send_custom_comms (fun _ => NetResult.err) "sk" [1] false
      (ClientState.mk "u" none none none) 0).res =
      (send_custom_comms (fun _ => okEnvelope .null) "sk" [1] false
        (ClientState.mk "u" none none none) 0).res :=
  ⟨send_custom_comms_passthrough_ambiguity.1 _ "sk" [1] false _ 0 (.num 0) rfl rfl,
   send_custom_comms_passthrough_ambiguity.2.1 _ "sk" [1] false _ 0 _ rfl rfl,
   send_custom_comms_passthrough_ambiguity.2.2 _ _ "sk" [1] false _ _ 0 0 .urlError rfl rfl⟩

/-- C4 counterexample: a client whose access token is set to the empty
string sends no Authorization header although a token is set on the client,
because the source tests the token for truthiness, not for presence. -/
theorem bearer_header_counterexample :
    (ClientState.mk "http://x" (some (.str "")) none none).access_token.isSome = true ∧
    hasHeader (buildRequest (ClientState.mk "http://x" (some (.str "")) none none)
      "status" none) "Authorization" = false :=
  ⟨rfl, rfl⟩

/-- C4 amended: the request built by request_json carries the Authorization
bearer header iff the access token is set to a truthy value (a token that is
set but falsy, such as the empty string, omits it); the Accept header is
attached in every case; and for a non-empty string token the header value is
Bearer followed by the token. -/
theorem bearer_header_iff_truthy_token (c : ClientState) (endpoint : String)
    (json_data : Option Json) :
    (hasHeader (buildRequest c endpoint json_data) "Authorization" = pyTruthy c.access_token) ∧
    headerVal (buildRequest c endpoint json_data).headers "Accept" = some "application/json" ∧
    (∀ s : String, c.access_token = some (.str s) → s ≠ "" →
      headerVal (buildRequest c endpoint json_data).headers "Authorization" =
        some ("Bearer " ++ s)) := by
  rcases c with ⟨burl, tok, sid, lvl⟩
  refine ⟨?_, ?_, ?_⟩
  · rcases tok with _ | t
    · rcases json_data with _ | b <;>
        simp [buildRequest, requestHeaders, hasHeader, headerVal, pyTruthy]
    · by_cases htr : t.truthy = true
      · rcases json_data with _ | b <;>
          simp [buildRequest, requestHeaders, hasHeader, headerVal, pyTruthy, htr]
      · simp only [Bool.not_eq_true] at htr
        rcases json_data with _ | b <;>
          simp [buildRequest, requestHeaders, hasHeader, headerVal, pyTruthy, htr]
  · rcases tok with _ | t
    · rcases json_data with _ | b <;> simp [buildRequest, requestHeaders, headerVal]
    · by_cases htr : t.truthy = true
      · rcases json_data with _ | b <;> simp [buildRequest, requestHeaders, headerVal, htr]
      · simp only [Bool.not_eq_true] at htr
        rcases json_data with _ | b <;> simp [buildRequest, requestHeaders, headerVal, htr]
  · intro s hs hne
    simp only at hs
    subst hs
    have htr : (Json.str s).truthy = true := by simp [Json.truthy, hne]
    rcases json_data with _ | b <;>
      simp [buildRequest, requestHeaders, headerVal, htr, pyStr]

/-- Closed instance of the C4 amended theorem on a concrete token. -/
theorem bearer_header_iff_truthy_token_witness :
    hasHeader (buildRequest (ClientState.mk "u" (some (.str "tok1")) none none) "status" none)
      "Authorization" =
      pyTruthy (ClientState.mk "u" (some (.str "tok1")) none none).access_token ∧
    headerVal (buildRequest (ClientState.mk "u" (some (.str "tok1")) none none)
      "status" none).headers "Authorization" = some ("Bearer " ++ "tok1") :=
  ⟨(bearer_header_iff_truthy_token (ClientState.mk "u" (some (.str "tok1")) none none)
      "status" none).1,
   (bearer_header_iff_truthy_token (ClientState.mk "u" (some (.str "tok1")) none none)
      "status" none).2.2 "tok1" rfl (by decide)⟩

/-- C3: when pilot access is requested and the authentication response
carries an accessLevel other than PILOT, the constructor exits fatally after
the single authentication request, before issuing any further request, and
the returned access token is never stored on the client. -/
theorem authenticate_pilot_denied_exits (env : NetEnv) (baseurl client_id : String)
    (token_file : Option (Option String)) (resp : Json) (lv : Option Json)
    (htf : token_file ≠ some none)
    (hresp : request_json_result (env 0) = .ok resp)
    (hlv : pyGet resp "accessLevel" = .ok lv)
    (hne : optEqStr lv "PILOT" = false) :
    (clientInit env baseurl true client_id token_file).res = .error .exit ∧
    (clientInit env baseurl true client_id token_file).client.access_token = none ∧
    (clientInit env baseurl true client_id token_file).reqs.map (fun r => r.endpoint) =
      ["authentication"] := by
  rcases token_file with _ | tfc
  · refine ⟨?_, ?_, ?_⟩ <;>
      simp [clientInit, authenticate, doRequest, hresp, hlv, hne, buildRequest]
  · rcases tfc with _ | content
    · exact absurd rfl htf
    · refine ⟨?_, ?_, ?_⟩ <;>
        simp [clientInit, authenticate, doRequest, hresp, hlv, hne, buildRequest]

/-- Closed instance of the C3 theorem with a GUEST-level reply. -/
theorem authenticate_pilot_denied_exits_witness :
    ((none : Option (Option String)) ≠ some none) ∧
    (clientInit
      (fun _ => okEnvelope (.obj [("accessLevel", Json.str "GUEST"),
        ("accessToken", Json.str "tok1")]))
      "http://x" true "cid" none).res = .error .exit ∧
    (clientInit
      (fun _ => okEnvelope (.obj [("accessLevel", Json.str "GUEST"),
        ("accessToken", Json.str "tok1")]))
      "http://x" true "cid" none).client.access_token = none :=
  ⟨by decide,
   (authenticate_pilot_denied_exits
     (fun _ => okEnvelope (.obj [("accessLevel", Json.str "GUEST"),
       ("accessToken", Json.str "tok1")]))
     "http://x" "cid" none
     (.obj [("accessLevel", Json.str "GUEST"), ("accessToken", Json.str "tok1")])
     (some (Json.str "GUEST")) (by decide) rfl rfl rfl).1,
   (authenticate_pilot_denied_exits
     (fun _ => okEnvelope (.obj [("accessLevel", Json.str "GUEST"),
       ("accessToken", Json.str "tok1")]))
     "http://x" "cid" none
     (.obj [("accessLevel", Json.str "GUEST"), ("accessToken", Json.str "tok1")])
     (some (Json.str "GUEST")) (by decide) rfl rfl rfl).2.1⟩

/-- C5: with pilot access and a status endpoint reporting the phases ready,
ready, flying over the three successive polls, takeoff returns normally and
issues exactly six requests: the initial status poll, the two fault
overrides, the second status poll, exactly one ground_takeoff async command,
and the third status poll, which is the last request before it returns. -/
theorem takeoff_scenario_single_command (sid0 sid1 sid2 j1 j2 j3 : Json)
    (rest : Nat → NetResult) (baseurl : String) (tok sid : Option Json) (k : Nat) :
    (takeoff (takeoffScenarioEnv sid0 sid1 sid2 j1 j2 j3 rest) (k + 2)
      (ClientState.mk baseurl tok sid (some (.str "PILOT"))) 0).res = .ok () ∧
    (takeoff (takeoffScenarioEnv sid0 sid1 sid2 j1 j2 j3 rest) (k + 2)
      (ClientState.mk baseurl tok sid (some (.str "PILOT"))) 0).reqs.filterMap
      (fun r => if r.endpoint == "async_command" then some r.body else none) =
      [some groundTakeoffBody] ∧
    (takeoff (takeoffScenarioEnv sid0 sid1 sid2 j1 j2 j3 rest) (k + 2)
      (ClientState.mk baseurl tok sid (some (.str "PILOT"))) 0).reqs.map
      (fun r => r.endpoint) =
      ["status", "set_fault_override/2", "set_fault_override/3", "status",
       "async_command", "status"] := by
  have hfuel : k + 2 = (k + 1) + 1 := rfl
  rw [hfuel]
  refine ⟨?_, ?_, ?_⟩ <;>
    simp [takeoff, takeoffLoop, update_pilot_status, disable_faults, doRequest,
      request_json_result, pyContains, pyIndex, pyGet, Json.lookup, okEnvelope,
      takeoffScenarioEnv, buildRequest, statusArgs, optEqStr, Json.eqStr,
      pyTruthy, Json.truthy, groundTakeoffBody, beq_iff_eq]

/-- Terminating runs of the land polling loop: they consist of one or more
land-command/status-poll iterations, and the final consumed response is a
status poll reporting a truthy phase other than FLYING. -/
theorem landLoop_ok_shape (env : NetEnv) :
    ∀ (fuel : Nat) (c : ClientState) (idx : Nat),
      (landLoop env fuel c idx).res = .ok () →
      ∃ k, 1 ≤ k ∧
        (landLoop env fuel c idx).reqs.map (fun r => r.endpoint) = landPattern k ∧
        pollBreaks (env ((landLoop env fuel c idx).idx - 1)) = true := by
  intro fuel
  induction fuel with
  | zero => intro c idx h; simp [landLoop] at h
  | succ fuel ih =>
    intro c idx h
    cases h1 : request_json_result (env idx) with
    | error e => simp [landLoop, doRequest, h1] at h
    | ok jland =>
      cases h2 : request_json_result (env (idx + 1)) with
      | error e =>
        simp [landLoop, doRequest, update_pilot_status, h1, h2] at h
      | ok resp =>
        cases h3 : pyIndex resp "sessionId" with
        | error e =>
          simp [landLoop, doRequest, update_pilot_status, h1, h2, h3] at h
        | ok nsid =>
          cases h4 : pyGet resp "flightPhase" with
          | error e =>
            simp [landLoop, doRequest, update_pilot_status, h1, h2, h3, h4] at h
          | ok phase =>
            cases h5 : pyTruthy phase with
            | false =>
              simp [landLoop, doRequest, update_pilot_status, h1, h2, h3, h4, h5,
                buildRequest] at h ⊢
              obtain ⟨kk, hk1, hmap, hbr⟩ := ih _ _ h
              exact ⟨kk + 1, by omega, by simp [landPattern, hmap], hbr⟩
            | true =>
              cases h6 : optEqStr phase "FLYING" with
              | true =>
                simp [landLoop, doRequest, update_pilot_status, h1, h2, h3, h4, h5, h6,
                  buildRequest] at h ⊢
                obtain ⟨kk, hk1, hmap, hbr⟩ := ih _ _ h
                exact ⟨kk + 1, by omega, by simp [landPattern, hmap], hbr⟩
              | false =>
                simp [landLoop, doRequest, update_pilot_status, h1, h2, h3, h4, h5, h6,
                  buildRequest]
                exact ⟨1, by omega, by simp [landPattern], by simp [pollBreaks, h2, h4, h5, h6]⟩

/-- If no response, read as a status poll, ever reports a truthy phase other
than FLYING, the land polling loop never returns normally, for any fuel. -/
theorem landLoop_no_break (env : NetEnv) (hn : ∀ n, pollBreaks (env n) = false) :
    ∀ (fuel : Nat) (c : ClientState) (idx : Nat),
      (landLoop env fuel c idx).res ≠ .ok () := by
  intro fuel
  induction fuel with
  | zero => intro c idx h; simp [landLoop] at h
  | succ fuel ih =>
    intro c idx h
    cases h1 : request_json_result (env idx) with
    | error e => simp [landLoop, doRequest, h1] at h
    | ok jland =>
      cases h2 : request_json_result (env (idx + 1)) with
      | error e =>
        simp [landLoop, doRequest, update_pilot_status, h1, h2] at h
      | ok resp =>
        cases h3 : pyIndex resp "sessionId" with
        | error e =>
          simp [landLoop, doRequest, update_pilot_status, h1, h2, h3] at h
        | ok nsid =>
          cases h4 : pyGet resp "flightPhase" with
          | error e =>
            simp [landLoop, doRequest, update_pilot_status, h1, h2, h3, h4] at h
          | ok phase =>
            cases h5 : pyTruthy phase with
            | false =>
              simp [landLoop, doRequest, update_pilot_status, h1, h2, h3, h4, h5] at h
              exact ih _ _ h
            | true =>
              cases h6 : optEqStr phase "FLYING" with
              | true =>
                simp [landLoop, doRequest, update_pilot_status, h1, h2, h3, h4, h5, h6] at h
                exact ih _ _ h
              | false =>
                have := hn (idx + 1)
                simp [pollBreaks, h2, h4, h5, h6] at this

/-- Whenever the land polling loop runs at all, its first request is a land
async command. -/
theorem landLoop_head (env : NetEnv) (fuel : Nat) (c : ClientState) (idx : Nat)
    (hf : 1 ≤ fuel) :
    ((landLoop env fuel c idx).reqs.map (fun r => r.endpoint)).head? =
      some "async_command" := by
  cases fuel with
  | zero => exact absurd hf (by omega)
  | succ fuel =>
    cases h1 : request_json_result (env idx) with
    | error e => simp [landLoop, doRequest, h1, buildRequest]
    | ok jland =>
      cases h2 : request_json_result (env (idx + 1)) with
      | error e =>
        simp [landLoop, doRequest, update_pilot_status, h1, h2, buildRequest]
      | ok resp =>
        cases h3 : pyIndex resp "sessionId" with
        | error e =>
          simp [landLoop, doRequest, update_pilot_status, h1, h2, h3, buildRequest]
        | ok nsid =>
          cases h4 : pyGet resp "flightPhase" with
          | error e =>
            simp [landLoop, doRequest, update_pilot_status, h1, h2, h3, h4, buildRequest]
          | ok phase =>
            cases h5 : pyTruthy phase with
            | false =>
              simp [landLoop, doRequest, update_pilot_status, h1, h2, h3, h4, h5,
                buildRequest]
            | true =>
              cases h6 : optEqStr phase "FLYING" with
              | true =>
                simp [landLoop, doRequest, update_pilot_status, h1, h2, h3, h4, h5, h6,
                  buildRequest]
              | false =>
                simp [landLoop, doRequest, update_pilot_status, h1, h2, h3, h4, h5, h6,
                  buildRequest]

/-- C8: with pilot access, land runs one or more land-command/status-poll
iterations, so a land command is issued before every status poll; its first
request, whenever the loop runs at all, is a land command; it returns
normally exactly when the finally consumed status poll reports a truthy
phase other than FLYING; and when no poll ever reports such a phase it never
returns, whatever the fuel bound. -/
theorem land_pilot_loop_requests (env : NetEnv) (fuel : Nat) (c : ClientState)
    (idx : Nat) (hpilot : optEqStr c.access_level "PILOT" = true) :
    ((land env fuel c idx).res = .ok () →
      ∃ k, 1 ≤ k ∧ (land env fuel c idx).reqs.map (fun r => r.endpoint) = landPattern k ∧
        pollBreaks (env ((land env fuel c idx).idx - 1)) = true) ∧
    (1 ≤ fuel → ((land env fuel c idx).reqs.map (fun r => r.endpoint)).head? =
      some "async_command") ∧
    ((∀ n, pollBreaks (env n) = false) → (land env fuel c idx).res ≠ .ok ()) := by
  have hl : land env fuel c idx = landLoop env fuel c idx := by
    simp [land, hpilot]
  rw [hl]
  exact ⟨landLoop_ok_shape env fuel c idx,
    fun hf => landLoop_head env fuel c idx hf,
    fun hn => landLoop_no_break env hn fuel c idx⟩

/-- Closed instance of the C8 theorem: under a server that always reports
the FLYING phase, land with pilot access never returns normally. -/
theorem land_pilot_loop_requests_witness :
    optEqStr (ClientState.mk "u" none none (some (.str "PILOT"))).access_level "PILOT" = true ∧
    (∀ n, pollBreaks ((fun (_ : Nat) => okEnvelope (.obj [("sessionId", Json.str "s"),
      ("flightPhase", Json.str "FLYING")])) n) = false) ∧
    (land (fun _ => okEnvelope (.obj [("sessionId", Json.str "s"),
      ("flightPhase", Json.str "FLYING")])) 7
      (ClientState.mk "u" none none (some (.str "PILOT"))) 0).res ≠ .ok () :=
  ⟨rfl, fun _ => rfl,
   (land_pilot_loop_requests
     (fun _ => okEnvelope (.obj [("sessionId", Json.str "s"),
       ("flightPhase", Json.str "FLYING")])) 7
     (ClientState.mk "u" none none (some (.str "PILOT"))) 0 rfl).2.2 (fun _ => rfl)⟩
